import Mathlib

/-!
Shallow embedding of the escrow smart contract `src/contracts/Escrow.sol`
of the Seekr repository, together with theorems checking the repository's
specification against it.

Modelling conventions:
  - addresses are naturals, `address(0)` is `0`;
  - `uint256` quantities are naturals (Solidity 0.8 checked arithmetic
    reverts on overflow rather than wrapping, and no claim concerns
    overflow; `/` is Nat floor division exactly as in the EVM);
  - the contract storage is an `EscrowState`; the mapping
    `mapping(uint256 => EscrowTransaction)` is a total function whose
    unwritten entries hold the Solidity zero value of the struct;
  - each external function takes `msg.sender` (and when it reads them,
    `msg.value` / `block.timestamp`) as explicit arguments and returns
    `Except Err (EscrowState × List (Nat × Nat))`: on success the new
    storage plus the list of outgoing value transfers
    (recipient, amount) made by `payable(x).transfer(y)`; on `require`
    failure the error of the spec's taxonomy that corresponds to the
    failing guard, with no state change (Solidity reverts atomically);
  - guards are evaluated in the source's modifier order.
-/

namespace Escrow

/-- The four statuses of `enum EscrowStatus` in Escrow.sol, in declaration
order (so the Solidity zero value is `PENDING`). -/
inductive EscrowStatus where
  | PENDING
  | DELIVERED
  | REFUNDED
  | DISPUTED
deriving DecidableEq, Repr

/-- The struct `EscrowTransaction` of Escrow.sol. -/
structure EscrowTransaction where
  buyer : Nat
  seller : Nat
  amount : Nat
  status : EscrowStatus
  createdAt : Nat
  deliveryDeadline : Nat
  itemDescription : String
  buyerConfirmed : Bool
  sellerConfirmed : Bool
deriving DecidableEq, Repr

/-- The Solidity zero value of `EscrowTransaction`: the value a mapping
returns for a key that was never written. Note its status is `PENDING`,
the first enum member. -/
def defaultTransaction : EscrowTransaction :=
  { buyer := 0, seller := 0, amount := 0, status := .PENDING, createdAt := 0,
    deliveryDeadline := 0, itemDescription := "", buyerConfirmed := false,
    sellerConfirmed := false }

/-- Error taxonomy of the specification (section 7), mapped from the
`require` messages of Escrow.sol. -/
inductive Err where
  | NotFound
  | Forbidden
  | InvalidState
  | TooEarly
  | InvalidInput
deriving DecidableEq, Repr

/-- The contract storage of Escrow.sol plus the contract's own ether
balance (`address(this).balance`). -/
structure EscrowState where
  escrows : Nat → EscrowTransaction
  nextEscrowId : Nat
  platformFee : Nat
  platformWallet : Nat
  owner : Nat
  balance : Nat

/-- Write one entry of the `escrows` mapping. -/
def setEscrow (s : EscrowState) (escrowId : Nat) (tx : EscrowTransaction) :
    EscrowState :=
  { s with escrows := fun j => if j = escrowId then tx else s.escrows j }

/-- The constructor of Escrow.sol: `owner = msg.sender`,
`platformWallet = _platformWallet`, `nextEscrowId = 1`; `platformFee` has
initializer 250 and the mapping is empty. The deployed contract holds no
ether. -/
def deploy (sender platformWallet0 : Nat) : EscrowState :=
  { escrows := fun _ => defaultTransaction, nextEscrowId := 1,
    platformFee := 250, platformWallet := platformWallet0, owner := sender,
    balance := 0 }

/-- Function `createEscrow(seller, itemDescription, deliveryDays)` of Escrow.sol,
lines 112 to 139. Returns the new state and the assigned id; `msg.value`
is added to the contract balance and no outgoing transfer happens. -/
def createEscrow (s : EscrowState) (sender value timestamp : Nat)
    (seller : Nat) (itemDescription : String) (deliveryDays : Nat) :
    Except Err (EscrowState × Nat) :=
  if 0 < value then
    if seller ≠ 0 then
      if seller ≠ sender then
        if 0 < deliveryDays ∧ deliveryDays ≤ 365 then
          let escrowId := s.nextEscrowId
          let tx : EscrowTransaction :=
            { buyer := sender, seller := seller, amount := value,
              status := .PENDING, createdAt := timestamp,
              deliveryDeadline := timestamp + deliveryDays * 86400,
              itemDescription := itemDescription, buyerConfirmed := false,
              sellerConfirmed := false }
          .ok ({ setEscrow s escrowId tx with
                   nextEscrowId := s.nextEscrowId + 1,
                   balance := s.balance + value }, escrowId)
        else .error .InvalidInput
      else .error .InvalidInput
    else .error .InvalidInput
  else .error .InvalidInput

/-- The internal `_completeEscrow` of Escrow.sol, lines 227 to 241: set the
status to DELIVERED, compute the fee split, transfer the fee to the
platform wallet when it is positive, and the rest to the seller. -/
def completeEscrow (s : EscrowState) (escrowId : Nat) :
    EscrowState × List (Nat × Nat) :=
  let escrow := s.escrows escrowId
  let feeAmount := escrow.amount * s.platformFee / 10000
  let sellerAmount := escrow.amount - feeAmount
  let transfers :=
    (if 0 < feeAmount then [(s.platformWallet, feeAmount)] else []) ++
      [(escrow.seller, sellerAmount)]
  ({ setEscrow s escrowId { escrow with status := .DELIVERED } with
       balance := s.balance - (feeAmount + sellerAmount) }, transfers)

/-- Function `confirmDelivery(escrowId)` of Escrow.sol, lines 145 to 165; modifiers
in source order: `escrowExists`, `escrowPending`, `onlyParticipant`. -/
def confirmDelivery (s : EscrowState) (sender escrowId : Nat) :
    Except Err (EscrowState × List (Nat × Nat)) :=
  if escrowId < s.nextEscrowId then
    if (s.escrows escrowId).status = .PENDING then
      if sender = (s.escrows escrowId).buyer ∨
          sender = (s.escrows escrowId).seller then
        let escrow := s.escrows escrowId
        let escrow' :=
          if sender = escrow.buyer then { escrow with buyerConfirmed := true }
          else { escrow with sellerConfirmed := true }
        let s1 := setEscrow s escrowId escrow'
        if escrow'.buyerConfirmed ||
            (escrow'.buyerConfirmed && escrow'.sellerConfirmed) then
          .ok (completeEscrow s1 escrowId)
        else
          .ok (s1, [])
      else .error .Forbidden
    else .error .InvalidState
  else .error .NotFound

/-- Function `requestRefund(escrowId)` of Escrow.sol, lines 171 to 186; modifiers
`escrowExists`, `escrowPending`, `onlyBuyer`, then the deadline check
`block.timestamp > deliveryDeadline`. -/
def requestRefund (s : EscrowState) (sender timestamp escrowId : Nat) :
    Except Err (EscrowState × List (Nat × Nat)) :=
  if escrowId < s.nextEscrowId then
    if (s.escrows escrowId).status = .PENDING then
      if sender = (s.escrows escrowId).buyer then
        if (s.escrows escrowId).deliveryDeadline < timestamp then
          let escrow := s.escrows escrowId
          .ok ({ setEscrow s escrowId { escrow with status := .REFUNDED } with
                   balance := s.balance - escrow.amount },
               [(escrow.buyer, escrow.amount)])
        else .error .TooEarly
      else .error .Forbidden
    else .error .InvalidState
  else .error .NotFound

/-- Function `raiseDispute(escrowId)` of Escrow.sol, lines 192 to 200; modifiers
`escrowExists`, `escrowPending`, `onlyParticipant`; no funds move. -/
def raiseDispute (s : EscrowState) (sender escrowId : Nat) :
    Except Err (EscrowState × List (Nat × Nat)) :=
  if escrowId < s.nextEscrowId then
    if (s.escrows escrowId).status = .PENDING then
      if sender = (s.escrows escrowId).buyer ∨
          sender = (s.escrows escrowId).seller then
        .ok (setEscrow s escrowId
               { s.escrows escrowId with status := .DISPUTED }, [])
      else .error .Forbidden
    else .error .InvalidState
  else .error .NotFound

/-- Function `resolveDispute(escrowId, refundToBuyer)` of Escrow.sol, lines 207 to
221; modifiers `onlyOwner`, `escrowExists`, then the in-body
`require(status == DISPUTED)`. -/
def resolveDispute (s : EscrowState) (sender escrowId : Nat)
    (refundToBuyer : Bool) : Except Err (EscrowState × List (Nat × Nat)) :=
  if sender = s.owner then
    if escrowId < s.nextEscrowId then
      if (s.escrows escrowId).status = .DISPUTED then
        if refundToBuyer then
          let escrow := s.escrows escrowId
          .ok ({ setEscrow s escrowId { escrow with status := .REFUNDED } with
                   balance := s.balance - escrow.amount },
               [(escrow.buyer, escrow.amount)])
        else .ok (completeEscrow s escrowId)
      else .error .InvalidState
    else .error .NotFound
  else .error .Forbidden

/-- Function `getEscrow(escrowId)` of Escrow.sol, lines 247 to 254: only the
`escrowExists` modifier guards it, then it returns the mapping entry. -/
def getEscrow (s : EscrowState) (escrowId : Nat) :
    Except Err EscrowTransaction :=
  if escrowId < s.nextEscrowId then .ok (s.escrows escrowId)
  else .error .NotFound

/-- Function `updatePlatformFee(newFee)` of Escrow.sol, lines 284 to 287. -/
def updatePlatformFee (s : EscrowState) (sender newFee : Nat) :
    Except Err (EscrowState × List (Nat × Nat)) :=
  if sender = s.owner then
    if newFee ≤ 1000 then .ok ({ s with platformFee := newFee }, [])
    else .error .InvalidInput
  else .error .Forbidden

/-- Function `updatePlatformWallet(newWallet)` of Escrow.sol, lines 293 to 296. -/
def updatePlatformWallet (s : EscrowState) (sender newWallet : Nat) :
    Except Err (EscrowState × List (Nat × Nat)) :=
  if sender = s.owner then
    if newWallet ≠ 0 then .ok ({ s with platformWallet := newWallet }, [])
    else .error .InvalidInput
  else .error .Forbidden

/-- Function `emergencyWithdraw()` of Escrow.sol, lines 301 to 303: owner-only;
transfers the whole contract balance to the owner. -/
def emergencyWithdraw (s : EscrowState) (sender : Nat) :
    Except Err (EscrowState × List (Nat × Nat)) :=
  if sender = s.owner then .ok ({ s with balance := 0 }, [(s.owner, s.balance)])
  else .error .Forbidden

/-- One state-changing external call to the contract, with its caller and,
where the source reads them, `msg.value` and `block.timestamp`. -/
inductive Op where
  | createEscrow (sender value timestamp seller : Nat)
      (itemDescription : String) (deliveryDays : Nat)
  | confirmDelivery (sender escrowId : Nat)
  | requestRefund (sender timestamp escrowId : Nat)
  | raiseDispute (sender escrowId : Nat)
  | resolveDispute (sender escrowId : Nat) (refundToBuyer : Bool)
  | updatePlatformFee (sender newFee : Nat)
  | updatePlatformWallet (sender newWallet : Nat)
  | emergencyWithdraw (sender : Nat)

/-- Execute one call against a state: new state and outgoing transfers on
success, error on revert. -/
def exec : Op → EscrowState →
    Except Err (EscrowState × List (Nat × Nat))
  | .createEscrow sender value timestamp seller desc days, s =>
      (createEscrow s sender value timestamp seller desc days).map
        (fun p => (p.1, []))
  | .confirmDelivery sender i, s => confirmDelivery s sender i
  | .requestRefund sender timestamp i, s => requestRefund s sender timestamp i
  | .raiseDispute sender i, s => raiseDispute s sender i
  | .resolveDispute sender i b, s => resolveDispute s sender i b
  | .updatePlatformFee sender f, s => updatePlatformFee s sender f
  | .updatePlatformWallet sender w, s => updatePlatformWallet s sender w
  | .emergencyWithdraw sender, s => emergencyWithdraw s sender

/-- Total version of `exec`: a reverted call leaves the state unchanged and
transfers nothing, as the EVM rolls back the whole call. -/
def step (op : Op) (s : EscrowState) : EscrowState × List (Nat × Nat) :=
  match exec op s with
  | .ok r => r
  | .error _ => (s, [])

/-- The escrow id an operation acts on, when it has one. -/
def target : Op → Option Nat
  | .confirmDelivery _ i => some i
  | .requestRefund _ _ i => some i
  | .raiseDispute _ i => some i
  | .resolveDispute _ i _ => some i
  | _ => none

/-- Whether the operation is the administrative `emergencyWithdraw`. -/
def Op.isEmergencyWithdraw : Op → Bool
  | .emergencyWithdraw _ => true
  | _ => false

/-- True when the call targets escrow `i` and actually moves funds out. -/
def emitsFor (i : Nat) (op : Op) (s : EscrowState) : Bool :=
  target op = some i && !(step op s).2.isEmpty

/-- Number of calls in a trace that move funds out of escrow `i`. -/
def settleCount (i : Nat) : List Op → EscrowState → Nat
  | [], _ => 0
  | op :: ops, s =>
      (if emitsFor i op s then 1 else 0) + settleCount i ops (step op s).1

/-- Status changes allowed by the specification's state machine:
no change, PENDING to anything, or DISPUTED to DELIVERED or REFUNDED. -/
def statusAllowed (a b : EscrowStatus) : Prop :=
  a = b ∨
    (a = .PENDING ∧ (b = .DELIVERED ∨ b = .REFUNDED ∨ b = .DISPUTED)) ∨
    (a = .DISPUTED ∧ (b = .DELIVERED ∨ b = .REFUNDED))

/-- Storage invariant of the deployed contract: every id at or above
`nextEscrowId` was never written, hence holds the zero struct, whose
status is `PENDING`. -/
def Inv (s : EscrowState) : Prop :=
  ∀ i, s.nextEscrowId ≤ i → s.escrows i = defaultTransaction

/-- The transfer list produced by a full refund of escrow `i` of
pre-state `s`. -/
def refundShape (s : EscrowState) (i : Nat) (ts : List (Nat × Nat)) : Prop :=
  ts = [((s.escrows i).buyer, (s.escrows i).amount)]

/-- The transfer list produced by the fee-split completion of escrow `i`
of pre-state `s`. -/
def completionShape (s : EscrowState) (i : Nat)
    (ts : List (Nat × Nat)) : Prop :=
  ts = (if 0 < (s.escrows i).amount * s.platformFee / 10000 then
          [(s.platformWallet, (s.escrows i).amount * s.platformFee / 10000)]
        else []) ++
    [((s.escrows i).seller,
      (s.escrows i).amount - (s.escrows i).amount * s.platformFee / 10000)]

/-- Deployment used by the concrete scenarios: owner is account 1 and the
platform wallet account 2. -/
def demoState0 : EscrowState := deploy 1 2

/-- State after account 3 creates escrow 1 with seller 4, 100 attached,
7 delivery days, at time 0. -/
def demoState1 : EscrowState :=
  (step (Op.createEscrow 3 100 0 4 "vintage lens" 7) demoState0).1

/-- State after the seller raises a dispute on escrow 1. -/
def demoState2 : EscrowState := (step (Op.raiseDispute 4 1) demoState1).1

theorem setEscrow_escrows (s : EscrowState) (i : Nat) (tx : EscrowTransaction)
    (j : Nat) :
    (setEscrow s i tx).escrows j = if j = i then tx else s.escrows j := rfl

theorem setEscrow_nextEscrowId (s : EscrowState) (i : Nat)
    (tx : EscrowTransaction) : (setEscrow s i tx).nextEscrowId = s.nextEscrowId :=
  rfl

theorem completeEscrow_escrows (s : EscrowState) (i0 j : Nat) :
    ((completeEscrow s i0).1).escrows j =
      if j = i0 then { s.escrows i0 with status := .DELIVERED }
      else s.escrows j := rfl

theorem completeEscrow_nextEscrowId (s : EscrowState) (i0 : Nat) :
    ((completeEscrow s i0).1).nextEscrowId = s.nextEscrowId := rfl

theorem completeEscrow_transfers (s : EscrowState) (i0 : Nat) :
    completionShape s i0 (completeEscrow s i0).2 := rfl

theorem statusAllowed_refl (a : EscrowStatus) : statusAllowed a a := Or.inl rfl

/-- C4: the claim says `get(id)` fails with NotFound for every id never
assigned by a create call, in particular for id 0; but ids start at 1 and
the `escrowExists` modifier only checks `escrowId < nextEscrowId`, so on a
freshly deployed contract `getEscrow 0` succeeds and returns the zero
struct even though escrow 0 was never created, while ids at or above
`nextEscrowId` do fail. -/
theorem getEscrow_zero_id_bug :
    getEscrow (deploy 1 2) 0 = .ok defaultTransaction ∧
      getEscrow (deploy 1 2) 1 = .error .NotFound := by
  constructor <;> rfl

/-- C10: for an existing escrow whose status is not PENDING, the
`escrowExists` and `escrowPending` modifiers run before the role
modifier, so any caller at all, participant or not, gets InvalidState
rather than Forbidden from `confirmDelivery`, `requestRefund`, and
`raiseDispute`. -/
theorem state_check_precedes_role_check (s : EscrowState)
    (sender timestamp i : Nat) (hex : i < s.nextEscrowId)
    (hnp : (s.escrows i).status ≠ .PENDING) :
    confirmDelivery s sender i = .error .InvalidState ∧
      requestRefund s sender timestamp i = .error .InvalidState ∧
      raiseDispute s sender i = .error .InvalidState := by
  refine ⟨?_, ?_, ?_⟩ <;>
    simp [confirmDelivery, requestRefund, raiseDispute, hex, hnp]

theorem state_check_precedes_role_check_witness :
    (1 < demoState2.nextEscrowId ∧ (demoState2.escrows 1).status ≠ .PENDING) ∧
      confirmDelivery demoState2 999 1 = .error .InvalidState ∧
      requestRefund demoState2 999 5 1 = .error .InvalidState ∧
      raiseDispute demoState2 999 1 = .error .InvalidState :=
  ⟨⟨by decide, by decide⟩,
   state_check_precedes_role_check demoState2 999 5 1 (by decide) (by decide)⟩

theorem confirmDelivery_buyer_eq (s : EscrowState) (sender i : Nat)
    (hex : i < s.nextEscrowId) (hp : (s.escrows i).status = .PENDING)
    (hb : sender = (s.escrows i).buyer) :
    confirmDelivery s sender i =
      .ok (completeEscrow
        (setEscrow s i { s.escrows i with buyerConfirmed := true }) i) := by
  subst hb
  unfold confirmDelivery
  simp [hex, hp]

theorem confirmDelivery_seller_eq (s : EscrowState) (sender i : Nat)
    (hex : i < s.nextEscrowId) (hp : (s.escrows i).status = .PENDING)
    (hs : sender = (s.escrows i).seller) (hnb : sender ≠ (s.escrows i).buyer)
    (hbc : (s.escrows i).buyerConfirmed = false) :
    confirmDelivery s sender i =
      .ok (setEscrow s i { s.escrows i with sellerConfirmed := true }, []) := by
  subst hs
  unfold confirmDelivery
  simp [hex, hp, hnb, hbc]

/-- C1: on a PENDING escrow, `confirmDelivery` by the buyer alone completes
it at once — the status becomes DELIVERED and the fee-split settlement
transfers run — because the completion condition
`buyerConfirmed or (buyerConfirmed and sellerConfirmed)` holds as soon as
the buyer's flag is set; by the seller alone (the buyer not having
confirmed) it records `sellerConfirmed` but leaves the status PENDING and
moves no funds. -/
theorem confirmDelivery_buyer_only_releases (s : EscrowState)
    (sender i : Nat) (hex : i < s.nextEscrowId)
    (hp : (s.escrows i).status = .PENDING) :
    (sender = (s.escrows i).buyer →
      ∃ s' ts, confirmDelivery s sender i = .ok (s', ts) ∧
        (s'.escrows i).status = .DELIVERED ∧ completionShape s i ts) ∧
    (sender = (s.escrows i).seller → sender ≠ (s.escrows i).buyer →
      (s.escrows i).buyerConfirmed = false →
      ∃ s', confirmDelivery s sender i = .ok (s', []) ∧
        (s'.escrows i).status = .PENDING ∧
        (s'.escrows i).sellerConfirmed = true) := by
  constructor
  · intro hb
    refine ⟨(completeEscrow
        (setEscrow s i { s.escrows i with buyerConfirmed := true }) i).1,
      (completeEscrow
        (setEscrow s i { s.escrows i with buyerConfirmed := true }) i).2,
      confirmDelivery_buyer_eq s sender i hex hp hb, ?_, ?_⟩
    · simp [completeEscrow, setEscrow]
    · simp [completionShape, completeEscrow, setEscrow]
  · intro hs hnb hbc
    refine ⟨setEscrow s i { s.escrows i with sellerConfirmed := true },
      confirmDelivery_seller_eq s sender i hex hp hs hnb hbc, ?_, ?_⟩
    · simp [setEscrow, hp]
    · simp [setEscrow]

theorem confirmDelivery_buyer_only_releases_witness :
    (1 < demoState1.nextEscrowId ∧ (demoState1.escrows 1).status = .PENDING ∧
      4 = (demoState1.escrows 1).seller ∧ (4 : Nat) ≠ (demoState1.escrows 1).buyer ∧
      (demoState1.escrows 1).buyerConfirmed = false) ∧
    (∃ s', confirmDelivery demoState1 4 1 = .ok (s', []) ∧
      (s'.escrows 1).status = .PENDING ∧ (s'.escrows 1).sellerConfirmed = true) ∧
    (∃ s' ts, confirmDelivery demoState1 3 1 = .ok (s', ts) ∧
      (s'.escrows 1).status = .DELIVERED ∧ completionShape demoState1 1 ts) :=
  ⟨⟨by decide, by decide, by decide, by decide, by decide⟩,
   (confirmDelivery_buyer_only_releases demoState1 4 1 (by decide) (by decide)).2
     (by decide) (by decide) (by decide),
   (confirmDelivery_buyer_only_releases demoState1 3 1 (by decide) (by decide)).1
     (by decide)⟩

/-- C3: settlement computes the fee as the floor of
`amount * platformFeeBps / 10000` and gives the seller the rest, so fee
plus seller amount is exactly the escrowed amount (the fee bound makes the
subtraction exact); the transfer to the platform wallet is present exactly
when the fee is positive. -/
theorem completeEscrow_fee_split (s : EscrowState) (i : Nat)
    (hfee : s.platformFee ≤ 10000) :
    (s.escrows i).amount * s.platformFee / 10000 +
        ((s.escrows i).amount -
          (s.escrows i).amount * s.platformFee / 10000) =
      (s.escrows i).amount ∧
    completionShape s i (completeEscrow s i).2 ∧
    ((s.escrows i).amount * s.platformFee / 10000 = 0 →
      (completeEscrow s i).2 = [((s.escrows i).seller, (s.escrows i).amount)]) ∧
    (0 < (s.escrows i).amount * s.platformFee / 10000 →
      (completeEscrow s i).2 =
        [(s.platformWallet, (s.escrows i).amount * s.platformFee / 10000),
         ((s.escrows i).seller,
          (s.escrows i).amount -
            (s.escrows i).amount * s.platformFee / 10000)]) := by
  have hle : (s.escrows i).amount * s.platformFee / 10000 ≤
      (s.escrows i).amount := by
    calc (s.escrows i).amount * s.platformFee / 10000
        ≤ (s.escrows i).amount * 10000 / 10000 :=
          Nat.div_le_div_right (Nat.mul_le_mul_left _ hfee)
      _ = (s.escrows i).amount := Nat.mul_div_cancel _ (by norm_num)
  refine ⟨by omega, completeEscrow_transfers s i, ?_, ?_⟩
  · intro h0
    simp [completeEscrow, h0]
  · intro hpos
    simp [completeEscrow, hpos]

theorem completeEscrow_fee_split_witness :
    demoState1.platformFee ≤ 10000 ∧
      (demoState1.escrows 1).amount * demoState1.platformFee / 10000 +
          ((demoState1.escrows 1).amount -
            (demoState1.escrows 1).amount * demoState1.platformFee / 10000) =
        (demoState1.escrows 1).amount ∧
      completionShape demoState1 1 (completeEscrow demoState1 1).2 :=
  ⟨by decide, (completeEscrow_fee_split demoState1 1 (by decide)).1,
   (completeEscrow_fee_split demoState1 1 (by decide)).2.1⟩

/-- C9 counterexample: in the concrete scenario (amount 100, fee 250 bps)
the integer division gives the platform 2 and the seller 98, not 2.5 and
97.5 as the claim states: doubling the actual amounts gives 4 and 196,
never the 5 and 195 that halves of 2.5 and 97.5 would require. -/
theorem fee_split_integer_counterexample :
    (step (Op.confirmDelivery 3 1) demoState1).2 = [(2, 2), (4, 98)] ∧
      (2 : Nat) * 2 ≠ 5 ∧ (98 : Nat) * 2 ≠ 195 := by decide

/-- C9 amended: in the scenario with amount 100 and platform fee 250 basis
points, the buyer's confirmation makes the status DELIVERED, the seller
receives 98 and the platform wallet receives 2 (the fee 2.5 is floored to
2 by integer division). -/
theorem buyer_confirm_scenario_integer_amounts :
    demoState1.platformFee = 250 ∧ (demoState1.escrows 1).amount = 100 ∧
      ((step (Op.confirmDelivery 3 1) demoState1).1.escrows 1).status =
        .DELIVERED ∧
      (step (Op.confirmDelivery 3 1) demoState1).2 = [(2, 2), (4, 98)] := by
  decide

/-- C6: `createEscrow` is rejected exactly when the attached value is zero,
the seller is the null account, the seller equals the buyer, or the
delivery days are outside 1..365; on success it assigns the next
sequential id (the counter starts at 1 on deployment), stores a PENDING
record with both confirmation flags false, the amount equal to the
attached value, and deadline equal to the creation time plus
deliveryDays times 86400 seconds. -/
theorem createEscrow_spec (s : EscrowState)
    (sender value timestamp seller : Nat) (desc : String) (days : Nat) :
    ((∃ e, createEscrow s sender value timestamp seller desc days = .error e) ↔
      value = 0 ∨ seller = 0 ∨ seller = sender ∨ days = 0 ∨ 365 < days) ∧
    (∀ s' id, createEscrow s sender value timestamp seller desc days =
        .ok (s', id) →
      id = s.nextEscrowId ∧ s'.nextEscrowId = s.nextEscrowId + 1 ∧
        s'.escrows id =
          { buyer := sender, seller := seller, amount := value,
            status := .PENDING, createdAt := timestamp,
            deliveryDeadline := timestamp + days * 86400,
            itemDescription := desc, buyerConfirmed := false,
            sellerConfirmed := false }) ∧
    (∀ o w, (deploy o w).nextEscrowId = 1) := by
  refine ⟨?_, ?_, fun o w => rfl⟩
  · unfold createEscrow
    by_cases h1 : 0 < value <;> by_cases h2 : seller ≠ 0 <;>
      by_cases h3 : seller ≠ sender <;>
      by_cases h4 : 0 < days ∧ days ≤ 365 <;>
      simp [h1, h2, h3, h4] <;> omega
  · intro s' id h
    unfold createEscrow at h
    split at h
    · split at h
      · split at h
        · split at h
          · simp only [Except.ok.injEq, Prod.mk.injEq] at h
            obtain ⟨hs', hid⟩ := h
            subst hs'
            subst hid
            refine ⟨rfl, rfl, ?_⟩
            simp [setEscrow]
          · exact Except.noConfusion h
        · exact Except.noConfusion h
      · exact Except.noConfusion h
    · exact Except.noConfusion h

theorem createEscrow_spec_witness :
    createEscrow demoState0 3 100 0 4 "vintage lens" 7 = .ok (demoState1, 1) ∧
      (1 = demoState0.nextEscrowId ∧ demoState1.nextEscrowId =
          demoState0.nextEscrowId + 1 ∧
        demoState1.escrows 1 =
          { buyer := 3, seller := 4, amount := 100, status := .PENDING,
            createdAt := 0, deliveryDeadline := 0 + 7 * 86400,
            itemDescription := "vintage lens", buyerConfirmed := false,
            sellerConfirmed := false }) :=
  ⟨rfl, (createEscrow_spec demoState0 3 100 0 4 "vintage lens" 7).2.1
    demoState1 1 rfl⟩

/-- C7: on a PENDING escrow, `requestRefund` by anyone but the buyer is
rejected with Forbidden; by the buyer it fails with TooEarly whenever the
time is not after the delivery deadline, and after the deadline it
succeeds, sets the status to REFUNDED, and transfers the full amount back
to the buyer with no fee deducted. -/
theorem requestRefund_spec (s : EscrowState) (sender timestamp i : Nat)
    (hex : i < s.nextEscrowId) (hp : (s.escrows i).status = .PENDING) :
    (sender ≠ (s.escrows i).buyer →
      requestRefund s sender timestamp i = .error .Forbidden) ∧
    (sender = (s.escrows i).buyer →
      (timestamp ≤ (s.escrows i).deliveryDeadline →
        requestRefund s sender timestamp i = .error .TooEarly) ∧
      ((s.escrows i).deliveryDeadline < timestamp →
        ∃ s', requestRefund s sender timestamp i =
            .ok (s', [((s.escrows i).buyer, (s.escrows i).amount)]) ∧
          (s'.escrows i).status = .REFUNDED)) := by
  constructor
  · intro hnb
    unfold requestRefund
    simp [hex, hp, hnb]
  · intro hb
    subst hb
    constructor
    · intro hle
      unfold requestRefund
      simp [hex, hp, Nat.not_lt.mpr hle]
    · intro hlt
      refine ⟨{ setEscrow s i { s.escrows i with status := .REFUNDED } with
          balance := s.balance - (s.escrows i).amount }, ?_, ?_⟩
      · unfold requestRefund
        simp [hex, hp, hlt]
      · simp [setEscrow]

theorem requestRefund_spec_witness :
    (1 < demoState1.nextEscrowId ∧ (demoState1.escrows 1).status = .PENDING ∧
      (4 : Nat) ≠ (demoState1.escrows 1).buyer ∧
      (3 : Nat) = (demoState1.escrows 1).buyer ∧
      (604800 : Nat) ≤ (demoState1.escrows 1).deliveryDeadline ∧
      (demoState1.escrows 1).deliveryDeadline < 604801) ∧
    requestRefund demoState1 4 604801 1 = .error .Forbidden ∧
    requestRefund demoState1 3 604800 1 = .error .TooEarly ∧
    (∃ s', requestRefund demoState1 3 604801 1 =
        .ok (s', [((demoState1.escrows 1).buyer, (demoState1.escrows 1).amount)]) ∧
      (s'.escrows 1).status = .REFUNDED) :=
  ⟨⟨by decide, by decide, by decide, by decide, by decide, by decide⟩,
   (requestRefund_spec demoState1 4 604801 1 (by decide) (by decide)).1
     (by decide),
   ((requestRefund_spec demoState1 3 604800 1 (by decide) (by decide)).2
     (by decide)).1 (by decide),
   ((requestRefund_spec demoState1 3 604801 1 (by decide) (by decide)).2
     (by decide)).2 (by decide)⟩

/-- C8: `resolveDispute` rejects every caller other than the owner with
Forbidden; it succeeds only when the caller is the owner and the escrow is
DISPUTED; called by the owner on an existing escrow in PENDING or
DELIVERED it fails with InvalidState; on success, refundToBuyer true
yields REFUNDED with the full amount to the buyer, and refundToBuyer
false runs the fee split to the seller and yields DELIVERED. -/
theorem resolveDispute_spec (s : EscrowState) (sender i : Nat)
    (rtb : Bool) :
    (sender ≠ s.owner →
      resolveDispute s sender i rtb = .error .Forbidden) ∧
    (∀ r, resolveDispute s sender i rtb = .ok r →
      sender = s.owner ∧ i < s.nextEscrowId ∧
        (s.escrows i).status = .DISPUTED) ∧
    (sender = s.owner → i < s.nextEscrowId →
      ((s.escrows i).status = .PENDING ∨ (s.escrows i).status = .DELIVERED) →
      resolveDispute s sender i rtb = .error .InvalidState) ∧
    (sender = s.owner → i < s.nextEscrowId →
      (s.escrows i).status = .DISPUTED →
      (rtb = true →
        ∃ s', resolveDispute s sender i rtb =
            .ok (s', [((s.escrows i).buyer, (s.escrows i).amount)]) ∧
          (s'.escrows i).status = .REFUNDED) ∧
      (rtb = false →
        ∃ s' ts, resolveDispute s sender i rtb = .ok (s', ts) ∧
          (s'.escrows i).status = .DELIVERED ∧ completionShape s i ts)) := by
  refine ⟨?_, ?_, ?_, ?_⟩
  · intro hno
    unfold resolveDispute
    simp [hno]
  · intro r h
    unfold resolveDispute at h
    split at h
    · split at h
      · split at h
        · exact ⟨by assumption, by assumption, by assumption⟩
        · exact Except.noConfusion h
      · exact Except.noConfusion h
    · exact Except.noConfusion h
  · intro ho hex hst
    unfold resolveDispute
    have hnd : (s.escrows i).status ≠ .DISPUTED := by
      rcases hst with h | h <;> simp [h]
    simp [ho, hex, hnd]
  · intro ho hex hd
    constructor
    · intro hr
      subst hr
      refine ⟨{ setEscrow s i { s.escrows i with status := .REFUNDED } with
          balance := s.balance - (s.escrows i).amount }, ?_, ?_⟩
      · unfold resolveDispute
        simp [ho, hex, hd]
      · simp [setEscrow]
    · intro hr
      subst hr
      refine ⟨(completeEscrow s i).1, (completeEscrow s i).2, ?_, ?_, ?_⟩
      · unfold resolveDispute
        simp [ho, hex, hd]
      · simp [completeEscrow, setEscrow]
      · exact completeEscrow_transfers s i

theorem resolveDispute_spec_witness :
    (1 = demoState2.owner ∧ 1 < demoState2.nextEscrowId ∧
      (demoState2.escrows 1).status = .DISPUTED ∧
      (7 : Nat) ≠ demoState2.owner) ∧
    resolveDispute demoState2 7 1 true = .error .Forbidden ∧
    (∃ s', resolveDispute demoState2 1 1 true =
        .ok (s', [((demoState2.escrows 1).buyer, (demoState2.escrows 1).amount)]) ∧
      (s'.escrows 1).status = .REFUNDED) :=
  ⟨⟨by decide, by decide, by decide, by decide⟩,
   (resolveDispute_spec demoState2 7 1 true).1 (by decide),
   ((resolveDispute_spec demoState2 1 1 true).2.2.2 (by decide) (by decide)
     (by decide)).1 rfl⟩

theorem step_of_ok {op : Op} {s : EscrowState}
    {r : EscrowState × List (Nat × Nat)} (h : exec op s = .ok r) :
    step op s = r := by simp [step, h]

theorem step_of_error {op : Op} {s : EscrowState} {e : Err}
    (h : exec op s = .error e) : step op s = (s, []) := by simp [step, h]

theorem confirmDelivery_seller_complete_eq (s : EscrowState) (sender i : Nat)
    (hex : i < s.nextEscrowId) (hp : (s.escrows i).status = .PENDING)
    (hs : sender = (s.escrows i).seller) (hnb : sender ≠ (s.escrows i).buyer)
    (hbc : (s.escrows i).buyerConfirmed = true) :
    confirmDelivery s sender i =
      .ok (completeEscrow
        (setEscrow s i { s.escrows i with sellerConfirmed := true }) i) := by
  subst hs
  unfold confirmDelivery
  simp [hex, hp, hnb, hbc]

theorem requestRefund_ok_eq (s : EscrowState) (sender timestamp i : Nat)
    (hex : i < s.nextEscrowId) (hp : (s.escrows i).status = .PENDING)
    (hb : sender = (s.escrows i).buyer)
    (hlt : (s.escrows i).deliveryDeadline < timestamp) :
    requestRefund s sender timestamp i =
      .ok ({ setEscrow s i { s.escrows i with status := .REFUNDED } with
               balance := s.balance - (s.escrows i).amount },
           [((s.escrows i).buyer, (s.escrows i).amount)]) := by
  subst hb
  unfold requestRefund
  simp [hex, hp, hlt]

theorem raiseDispute_ok_eq (s : EscrowState) (sender i : Nat)
    (hex : i < s.nextEscrowId) (hp : (s.escrows i).status = .PENDING)
    (hpart : sender = (s.escrows i).buyer ∨ sender = (s.escrows i).seller) :
    raiseDispute s sender i =
      .ok (setEscrow s i { s.escrows i with status := .DISPUTED }, []) := by
  unfold raiseDispute
  simp [hex, hp, hpart]

theorem resolveDispute_refund_eq (s : EscrowState) (sender i : Nat)
    (ho : sender = s.owner) (hex : i < s.nextEscrowId)
    (hd : (s.escrows i).status = .DISPUTED) :
    resolveDispute s sender i true =
      .ok ({ setEscrow s i { s.escrows i with status := .REFUNDED } with
               balance := s.balance - (s.escrows i).amount },
           [((s.escrows i).buyer, (s.escrows i).amount)]) := by
  unfold resolveDispute
  simp [ho, hex, hd]

theorem resolveDispute_complete_eq (s : EscrowState) (sender i : Nat)
    (ho : sender = s.owner) (hex : i < s.nextEscrowId)
    (hd : (s.escrows i).status = .DISPUTED) :
    resolveDispute s sender i false = .ok (completeEscrow s i) := by
  unfold resolveDispute
  simp [ho, hex, hd]

theorem createEscrow_ok_eq (s : EscrowState)
    (sender value timestamp seller : Nat) (desc : String) (days : Nat)
    (h1 : 0 < value) (h2 : seller ≠ 0) (h3 : seller ≠ sender)
    (h4 : 0 < days ∧ days ≤ 365) :
    createEscrow s sender value timestamp seller desc days =
      .ok ({ setEscrow s s.nextEscrowId
               { buyer := sender, seller := seller, amount := value,
                 status := .PENDING, createdAt := timestamp,
                 deliveryDeadline := timestamp + days * 86400,
                 itemDescription := desc, buyerConfirmed := false,
                 sellerConfirmed := false } with
               nextEscrowId := s.nextEscrowId + 1,
               balance := s.balance + value }, s.nextEscrowId) := by
  unfold createEscrow
  simp [h1, h2, h3, h4]

theorem step_shape (op : Op) (s : EscrowState) :
    ((step op s).1.escrows = s.escrows ∧
      (step op s).1.nextEscrowId = s.nextEscrowId ∧ (step op s).2 = []) ∨
    (op.isEmergencyWithdraw = true ∧ target op = none ∧
      (step op s).1.escrows = s.escrows ∧
      (step op s).1.nextEscrowId = s.nextEscrowId) ∨
    ((∃ tx, tx.status = .PENDING ∧
        (step op s).1.escrows =
          fun j => if j = s.nextEscrowId then tx else s.escrows j) ∧
      (step op s).1.nextEscrowId = s.nextEscrowId + 1 ∧ (step op s).2 = []) ∨
    (∃ i0 tx, target op = some i0 ∧ i0 < s.nextEscrowId ∧
      (step op s).1.escrows = (fun j => if j = i0 then tx else s.escrows j) ∧
      (step op s).1.nextEscrowId = s.nextEscrowId ∧
      (((s.escrows i0).status = .PENDING ∧
         (tx.status = .PENDING ∨ tx.status = .DISPUTED) ∧
         (step op s).2 = []) ∨
       (((s.escrows i0).status = .PENDING ∨
          (s.escrows i0).status = .DISPUTED) ∧
         tx.status = .DELIVERED ∧ completionShape s i0 (step op s).2) ∨
       (((s.escrows i0).status = .PENDING ∨
          (s.escrows i0).status = .DISPUTED) ∧
         tx.status = .REFUNDED ∧ refundShape s i0 (step op s).2))) := by
  cases op with
  | createEscrow sender value timestamp seller desc days =>
    by_cases h1 : 0 < value
    case neg => left; simp [step, exec, createEscrow, Except.map, h1]
    by_cases h2 : seller = 0
    case pos => left; simp [step, exec, createEscrow, Except.map, h1, h2]
    by_cases h3 : seller = sender
    case pos => left; simp [step, exec, createEscrow, Except.map, h1, h2, h3]
    by_cases h4 : 0 < days ∧ days ≤ 365
    case neg =>
      left; simp [step, exec, createEscrow, Except.map, h1, h2, h3, h4]
    have hstep : step (Op.createEscrow sender value timestamp seller desc
        days) s =
        ({ setEscrow s s.nextEscrowId
             { buyer := sender, seller := seller, amount := value,
               status := .PENDING, createdAt := timestamp,
               deliveryDeadline := timestamp + days * 86400,
               itemDescription := desc, buyerConfirmed := false,
               sellerConfirmed := false } with
             nextEscrowId := s.nextEscrowId + 1,
             balance := s.balance + value }, []) := by
      apply step_of_ok
      show (createEscrow s sender value timestamp seller desc days).map
          (fun p => (p.1, [])) = _
      rw [createEscrow_ok_eq s sender value timestamp seller desc days
        h1 h2 h3 h4]
      rfl
    refine Or.inr (Or.inr (Or.inl ⟨⟨(⟨sender, seller, value, .PENDING,
      timestamp, timestamp + days * 86400, desc, false, false⟩ :
        EscrowTransaction), rfl, ?_⟩, ?_, ?_⟩)) <;> rw [hstep] <;> rfl
  | confirmDelivery sender i0 =>
    by_cases hex : i0 < s.nextEscrowId
    case neg => left; simp [step, exec, confirmDelivery, hex]
    by_cases hp : (s.escrows i0).status = .PENDING
    case neg => left; simp [step, exec, confirmDelivery, hex, hp]
    by_cases hb : sender = (s.escrows i0).buyer
    · have hstep : step (Op.confirmDelivery sender i0) s =
          completeEscrow
            (setEscrow s i0 { s.escrows i0 with buyerConfirmed := true })
            i0 :=
        step_of_ok (confirmDelivery_buyer_eq s sender i0 hex hp hb)
      refine Or.inr (Or.inr (Or.inr ⟨i0,
        ({ s.escrows i0 with buyerConfirmed := true, status := .DELIVERED } : EscrowTransaction),
        rfl, hex, ?_, ?_, Or.inr (Or.inl ⟨Or.inl hp, rfl, ?_⟩)⟩))
      · rw [hstep]
        funext j
        by_cases hj : j = i0 <;> simp [completeEscrow, setEscrow, hj]
      · rw [hstep]; rfl
      · rw [hstep]
        simp [completionShape, completeEscrow, setEscrow]
    by_cases hs : sender = (s.escrows i0).seller
    case neg => left; simp [step, exec, confirmDelivery, hex, hp, hb, hs]
    by_cases hbc : (s.escrows i0).buyerConfirmed = true
    · have hstep : step (Op.confirmDelivery sender i0) s =
          completeEscrow
            (setEscrow s i0 { s.escrows i0 with sellerConfirmed := true })
            i0 :=
        step_of_ok
          (confirmDelivery_seller_complete_eq s sender i0 hex hp hs hb hbc)
      refine Or.inr (Or.inr (Or.inr ⟨i0,
        ({ s.escrows i0 with sellerConfirmed := true, status := .DELIVERED } : EscrowTransaction),
        rfl, hex, ?_, ?_, Or.inr (Or.inl ⟨Or.inl hp, rfl, ?_⟩)⟩))
      · rw [hstep]
        funext j
        by_cases hj : j = i0 <;> simp [completeEscrow, setEscrow, hj]
      · rw [hstep]; rfl
      · rw [hstep]
        simp [completionShape, completeEscrow, setEscrow]
    · have hbc' : (s.escrows i0).buyerConfirmed = false := by
        simpa using hbc
      have hstep : step (Op.confirmDelivery sender i0) s =
          (setEscrow s i0 { s.escrows i0 with sellerConfirmed := true },
           []) :=
        step_of_ok (confirmDelivery_seller_eq s sender i0 hex hp hs hb hbc')
      refine Or.inr (Or.inr (Or.inr ⟨i0,
        ({ s.escrows i0 with sellerConfirmed := true } : EscrowTransaction),
        rfl, hex, ?_, ?_, Or.inl ⟨hp, Or.inl (by simp [hp]), ?_⟩⟩)) <;>
        rw [hstep] <;> rfl
  | requestRefund sender timestamp i0 =>
    by_cases hex : i0 < s.nextEscrowId
    case neg => left; simp [step, exec, requestRefund, hex]
    by_cases hp : (s.escrows i0).status = .PENDING
    case neg => left; simp [step, exec, requestRefund, hex, hp]
    by_cases hb : sender = (s.escrows i0).buyer
    case neg => left; simp [step, exec, requestRefund, hex, hp, hb]
    by_cases hlt : (s.escrows i0).deliveryDeadline < timestamp
    case neg => left; simp [step, exec, requestRefund, hex, hp, hb, hlt]
    have hstep : step (Op.requestRefund sender timestamp i0) s =
        ({ setEscrow s i0 { s.escrows i0 with status := .REFUNDED } with
             balance := s.balance - (s.escrows i0).amount },
         [((s.escrows i0).buyer, (s.escrows i0).amount)]) :=
      step_of_ok (requestRefund_ok_eq s sender timestamp i0 hex hp hb hlt)
    refine Or.inr (Or.inr (Or.inr ⟨i0,
      ({ s.escrows i0 with status := .REFUNDED } : EscrowTransaction),
      rfl, hex, ?_, ?_, Or.inr (Or.inr ⟨Or.inl hp, rfl, ?_⟩)⟩)) <;>
      rw [hstep] <;> rfl
  | raiseDispute sender i0 =>
    by_cases hex : i0 < s.nextEscrowId
    case neg => left; simp [step, exec, raiseDispute, hex]
    by_cases hp : (s.escrows i0).status = .PENDING
    case neg => left; simp [step, exec, raiseDispute, hex, hp]
    by_cases hpart : sender = (s.escrows i0).buyer ∨
        sender = (s.escrows i0).seller
    case neg => left; simp [step, exec, raiseDispute, hex, hp, hpart]
    have hstep : step (Op.raiseDispute sender i0) s =
        (setEscrow s i0 { s.escrows i0 with status := .DISPUTED }, []) :=
      step_of_ok (raiseDispute_ok_eq s sender i0 hex hp hpart)
    refine Or.inr (Or.inr (Or.inr ⟨i0,
      ({ s.escrows i0 with status := .DISPUTED } : EscrowTransaction),
      rfl, hex, ?_, ?_, Or.inl ⟨hp, Or.inr rfl, ?_⟩⟩)) <;>
      rw [hstep] <;> rfl
  | resolveDispute sender i0 rtb =>
    by_cases ho : sender = s.owner
    case neg => left; simp [step, exec, resolveDispute, ho]
    by_cases hex : i0 < s.nextEscrowId
    case neg => left; simp [step, exec, resolveDispute, ho, hex]
    by_cases hd : (s.escrows i0).status = .DISPUTED
    case neg => left; simp [step, exec, resolveDispute, ho, hex, hd]
    cases rtb with
    | true =>
      have hstep : step (Op.resolveDispute sender i0 true) s =
          ({ setEscrow s i0 { s.escrows i0 with status := .REFUNDED } with
               balance := s.balance - (s.escrows i0).amount },
           [((s.escrows i0).buyer, (s.escrows i0).amount)]) :=
        step_of_ok (resolveDispute_refund_eq s sender i0 ho hex hd)
      refine Or.inr (Or.inr (Or.inr ⟨i0,
        ({ s.escrows i0 with status := .REFUNDED } : EscrowTransaction),
        rfl, hex, ?_, ?_, Or.inr (Or.inr ⟨Or.inr hd, rfl, ?_⟩)⟩)) <;>
        rw [hstep] <;> rfl
    | false =>
      have hstep : step (Op.resolveDispute sender i0 false) s =
          completeEscrow s i0 :=
        step_of_ok (resolveDispute_complete_eq s sender i0 ho hex hd)
      refine Or.inr (Or.inr (Or.inr ⟨i0,
        ({ s.escrows i0 with status := .DELIVERED } : EscrowTransaction),
        rfl, hex, ?_, ?_, Or.inr (Or.inl ⟨Or.inr hd, rfl, ?_⟩)⟩)) <;>
        rw [hstep] <;> rfl
  | updatePlatformFee sender f =>
    left
    by_cases ho : sender = s.owner
    · by_cases hf : f ≤ 1000 <;> simp [step, exec, updatePlatformFee, ho, hf]
    · simp [step, exec, updatePlatformFee, ho]
  | updatePlatformWallet sender w =>
    left
    by_cases ho : sender = s.owner
    · by_cases hw : w = 0 <;> simp [step, exec, updatePlatformWallet, ho, hw]
    · simp [step, exec, updatePlatformWallet, ho]
  | emergencyWithdraw sender =>
    by_cases ho : sender = s.owner
    · have hstep : step (Op.emergencyWithdraw sender) s =
          ({ s with balance := 0 }, [(s.owner, s.balance)]) :=
        step_of_ok (by simp [exec, emergencyWithdraw, ho])
      exact Or.inr (Or.inl ⟨rfl, rfl, by rw [hstep], by rw [hstep]⟩)
    · left; simp [step, exec, emergencyWithdraw, ho]

theorem step_nextEscrowId_le (op : Op) (s : EscrowState) :
    s.nextEscrowId ≤ (step op s).1.nextEscrowId := by
  rcases step_shape op s with ⟨_, h, _⟩ | ⟨_, _, _, h⟩ | ⟨_, h, _⟩ |
    ⟨i0, tx, _, _, _, h, _⟩ <;> omega

theorem step_escrows_high (op : Op) (s : EscrowState) (j : Nat)
    (hj : (step op s).1.nextEscrowId ≤ j) :
    (step op s).1.escrows j = s.escrows j := by
  rcases step_shape op s with ⟨he, hn, _⟩ | ⟨_, _, he, hn⟩ |
    ⟨⟨tx, _, he⟩, hn, _⟩ | ⟨i0, tx, _, hi0, he, hn, _⟩
  · rw [he]
  · rw [he]
  · rw [hn] at hj
    simp only [he]
    exact if_neg (by omega)
  · rw [hn] at hj
    simp only [he]
    exact if_neg (by omega)

theorem step_inv (op : Op) (s : EscrowState) (h : Inv s) :
    Inv (step op s).1 := by
  intro j hj
  rw [step_escrows_high op s j hj]
  exact h j (le_trans (step_nextEscrowId_le op s) hj)

theorem statusAllowed_step (op : Op) (s : EscrowState) (hInv : Inv s)
    (i : Nat) :
    statusAllowed ((s.escrows i).status)
      (((step op s).1.escrows i).status) := by
  rcases step_shape op s with ⟨he, _, _⟩ | ⟨_, _, he, _⟩ |
    ⟨⟨tx, htx, he⟩, _, _⟩ | ⟨i0, tx, _, hi0, he, _, hcase⟩
  · rw [he]; exact statusAllowed_refl _
  · rw [he]; exact statusAllowed_refl _
  · by_cases hi : i = s.nextEscrowId
    · have hd : s.escrows i = defaultTransaction := hInv i (by omega)
      rw [hi] at hd
      simp [he, hi, htx, hd, statusAllowed, defaultTransaction]
    · simp only [he]
      simp [hi]
      exact statusAllowed_refl _
  · by_cases hi : i = i0
    · subst hi
      rcases hcase with ⟨hpend, htx, _⟩ | ⟨hpre, htx, _⟩ | ⟨hpre, htx, _⟩
      · rcases htx with h | h <;> simp [he, hpend, h, statusAllowed]
      · rcases hpre with h | h <;> simp [he, h, htx, statusAllowed]
      · rcases hpre with h | h <;> simp [he, h, htx, statusAllowed]
    · simp only [he]
      simp [hi]
      exact statusAllowed_refl _

theorem step_settles (op : Op) (s : EscrowState) (i : Nat)
    (ht : target op = some i) (hts : (step op s).2 ≠ []) :
    ((s.escrows i).status = .PENDING ∨ (s.escrows i).status = .DISPUTED) ∧
      ((((step op s).1.escrows i).status = .DELIVERED ∧
          completionShape s i (step op s).2) ∨
        (((step op s).1.escrows i).status = .REFUNDED ∧
          refundShape s i (step op s).2)) := by
  rcases step_shape op s with ⟨_, _, h⟩ | ⟨_, hn, _, _⟩ | ⟨_, _, h⟩ |
    ⟨i0, tx, ht0, _, he, _, hcase⟩
  · exact absurd h hts
  · rw [ht] at hn; exact Option.noConfusion hn
  · exact absurd h hts
  · rw [ht] at ht0
    obtain rfl := Option.some.inj ht0
    rcases hcase with ⟨_, _, h⟩ | ⟨hpre, htx, hsh⟩ | ⟨hpre, htx, hsh⟩
    · exact absurd h hts
    · exact ⟨hpre, Or.inl ⟨by simp [he, htx], hsh⟩⟩
    · exact ⟨hpre, Or.inr ⟨by simp [he, htx], hsh⟩⟩

theorem no_settle_from_terminal (op : Op) (s : EscrowState) (i : Nat)
    (ht : target op = some i)
    (hterm : (s.escrows i).status = .DELIVERED ∨
      (s.escrows i).status = .REFUNDED) :
    (step op s).2 = [] := by
  by_contra hts
  obtain ⟨hpre, _⟩ := step_settles op s i ht hts
  rcases hpre with h | h <;> rcases hterm with h' | h' <;> rw [h'] at h <;>
    exact EscrowStatus.noConfusion h

theorem terminal_preserved (op : Op) (s : EscrowState) (i : Nat)
    (hInv : Inv s)
    (hterm : (s.escrows i).status = .DELIVERED ∨
      (s.escrows i).status = .REFUNDED) :
    ((step op s).1.escrows i).status = (s.escrows i).status := by
  have h := statusAllowed_step op s hInv i
  unfold statusAllowed at h
  rcases hterm with h' | h' <;> rw [h'] at h ⊢ <;>
    rcases h with h | ⟨h1, _⟩ | ⟨h1, _⟩ <;>
    first
      | exact h.symm
      | exact EscrowStatus.noConfusion h1

theorem settleCount_zero (ops : List Op) (s : EscrowState) (i : Nat)
    (hInv : Inv s)
    (hterm : (s.escrows i).status = .DELIVERED ∨
      (s.escrows i).status = .REFUNDED) :
    settleCount i ops s = 0 := by
  induction ops generalizing s with
  | nil => rfl
  | cons op ops ih =>
    have hemit : emitsFor i op s = false := by
      unfold emitsFor
      by_cases ht : target op = some i
      · simp [ht, no_settle_from_terminal op s i ht hterm]
      · simp [ht]
    simp only [settleCount, hemit]
    have hterm' : ((step op s).1.escrows i).status = .DELIVERED ∨
        ((step op s).1.escrows i).status = .REFUNDED := by
      rw [terminal_preserved op s i hInv hterm]
      exact hterm
    simp [ih (step op s).1 (step_inv op s hInv) hterm']

theorem settleCount_le_one (ops : List Op) (s : EscrowState) (i : Nat)
    (hInv : Inv s) : settleCount i ops s ≤ 1 := by
  induction ops generalizing s with
  | nil => simp [settleCount]
  | cons op ops ih =>
    by_cases hemit : emitsFor i op s = true
    · have hsp : target op = some i ∧ ¬(step op s).2.isEmpty = true := by
        simpa [emitsFor] using hemit
      have hts : (step op s).2 ≠ [] := by
        intro h
        exact hsp.2 (by simp [h])
      obtain ⟨hpre, hnew⟩ := step_settles op s i hsp.1 hts
      have hterm : ((step op s).1.escrows i).status = .DELIVERED ∨
          ((step op s).1.escrows i).status = .REFUNDED := by
        rcases hnew with ⟨h, _⟩ | ⟨h, _⟩
        · exact Or.inl h
        · exact Or.inr h
      have h0 := settleCount_zero ops (step op s).1 i
        (step_inv op s hInv) hterm
      simp only [settleCount, hemit, if_true, h0]
      omega
    · simp only [settleCount, hemit, if_false]
      simpa using ih (step op s).1 (step_inv op s hInv)

/-- C2: under the storage invariant (ids at or above the counter are
unwritten), every operation changes each escrow's status only along
PENDING to DELIVERED, REFUNDED, or DISPUTED, or DISPUTED to DELIVERED or
REFUNDED; the invariant is preserved, and a rejected call leaves the
whole state unchanged and transfers nothing. -/
theorem status_transitions_allowed (op : Op) (s : EscrowState)
    (hInv : Inv s) :
    (∀ i, statusAllowed ((s.escrows i).status)
        (((step op s).1.escrows i).status)) ∧
      Inv (step op s).1 ∧
      (∀ e, exec op s = .error e → step op s = (s, [])) :=
  ⟨statusAllowed_step op s hInv, step_inv op s hInv,
   fun _ he => step_of_error he⟩

theorem status_transitions_allowed_witness :
    Inv demoState0 ∧
      statusAllowed ((demoState0.escrows 1).status)
        (((step (Op.createEscrow 3 100 0 4 "vintage lens" 7)
            demoState0).1.escrows 1).status) ∧
      Inv demoState1 :=
  ⟨fun i _ => rfl,
   (status_transitions_allowed (Op.createEscrow 3 100 0 4 "vintage lens" 7)
     demoState0 (fun i _ => rfl)).1 1,
   (status_transitions_allowed (Op.createEscrow 3 100 0 4 "vintage lens" 7)
     demoState0 (fun i _ => rfl)).2.1⟩

/-- C5 counterexample: with escrow 1 still PENDING and the contract
holding its 100, `emergencyWithdraw` by the owner transfers the full 100
to the owner, who is neither the escrow's buyer, its seller, nor the
platform wallet, while the escrow stays PENDING; the buyer can then still
confirm, transferring 2 and 98 again — so the held funds leave the
ledger twice, and once to a non-settlement party. -/
theorem emergencyWithdraw_moves_held_funds :
    (demoState1.escrows 1).status = .PENDING ∧
      (demoState1.escrows 1).amount = 100 ∧ demoState1.balance = 100 ∧
      (step (Op.emergencyWithdraw 1) demoState1).2 = [(1, 100)] ∧
      ((step (Op.emergencyWithdraw 1) demoState1).1.escrows 1).status =
        .PENDING ∧
      (1 : Nat) ≠ (demoState1.escrows 1).buyer ∧
      (1 : Nat) ≠ (demoState1.escrows 1).seller ∧
      (1 : Nat) ≠ demoState1.platformWallet ∧
      (step (Op.confirmDelivery 3 1)
        (step (Op.emergencyWithdraw 1) demoState1).1).2 =
        [(2, 2), (4, 98)] := by
  decide

/-- C5 amended: excluding `emergencyWithdraw` (which can sweep the whole
balance, held funds included, to the owner), an operation that moves any
funds is a settlement of its target escrow, shaped either as the fee
split on completion or as the full refund to the buyer, and begins from
PENDING or DISPUTED; and under the storage invariant, any trace of
operations settles each escrow at most once. -/
theorem funds_move_once_settlement_paths :
    (∀ op s, op.isEmergencyWithdraw = false → (step op s).2 ≠ [] →
      ∃ i, target op = some i ∧
        ((s.escrows i).status = .PENDING ∨
          (s.escrows i).status = .DISPUTED) ∧
        (completionShape s i (step op s).2 ∨
          refundShape s i (step op s).2)) ∧
    (∀ i ops s, Inv s → settleCount i ops s ≤ 1) := by
  constructor
  · intro op s hew hts
    rcases step_shape op s with ⟨_, _, h⟩ | ⟨h, _, _, _⟩ | ⟨_, _, h⟩ |
      ⟨i0, tx, ht0, _, _, _, hcase⟩
    · exact absurd h hts
    · rw [hew] at h; exact Bool.noConfusion h
    · exact absurd h hts
    · rcases hcase with ⟨_, _, h⟩ | ⟨hpre, _, hsh⟩ | ⟨hpre, _, hsh⟩
      · exact absurd h hts
      · exact ⟨i0, ht0, hpre, Or.inl hsh⟩
      · exact ⟨i0, ht0, hpre, Or.inr hsh⟩
  · intro i ops s hInv
    exact settleCount_le_one ops s i hInv

theorem funds_move_once_settlement_paths_witness :
    ((Op.confirmDelivery 3 1).isEmergencyWithdraw = false ∧
      (step (Op.confirmDelivery 3 1) demoState1).2 ≠ [] ∧ Inv demoState1) ∧
      (∃ i, target (Op.confirmDelivery 3 1) = some i ∧
        ((demoState1.escrows i).status = .PENDING ∨
          (demoState1.escrows i).status = .DISPUTED) ∧
        (completionShape demoState1 i
            (step (Op.confirmDelivery 3 1) demoState1).2 ∨
          refundShape demoState1 i
            (step (Op.confirmDelivery 3 1) demoState1).2)) ∧
      settleCount 1 [Op.confirmDelivery 3 1, Op.requestRefund 3 999 1]
        demoState1 ≤ 1 :=
  ⟨⟨rfl, by decide,
    step_inv (Op.createEscrow 3 100 0 4 "vintage lens" 7) demoState0
      (fun i _ => rfl)⟩,
   funds_move_once_settlement_paths.1 (Op.confirmDelivery 3 1) demoState1
     rfl (by decide),
   funds_move_once_settlement_paths.2 1
     [Op.confirmDelivery 3 1, Op.requestRefund 3 999 1] demoState1
     (step_inv (Op.createEscrow 3 100 0 4 "vintage lens" 7) demoState0
       (fun i _ => rfl))⟩

end Escrow
